import Mathlib

/-!
Verification of the Lex deployment-bot webhook handler
(`aws-lex-meta/bot.py`).

The Python module is a pure request-to-response mapping: a dispatcher
routes an intent request to one of two intent handlers, which build one
of four dialog-action payloads.  We embed the data model and every
function the claims touch, modelling Python exceptions explicitly with
`Except`:

* `dispatch` calls `deploy_prod_intent()` with no argument, which in
  Python raises `TypeError` before the handler body runs; we embed that
  call site as an error value.
* `deploy_prod_intent` evaluates `logger.debug("itsm_number" + itsm_number)`
  before its null check; concatenating `str` with `None` raises
  `TypeError`, which we embed as an error step guarding the rest of the
  body.
* Subscripting a dict with a missing key raises `KeyError`; slot maps are
  association lists and a missing key is an error.
* The dispatcher raises a plain `Exception` for unsupported intents.

Slot values are `Option String` (Python `None` vs a string).  The
`sessionAttributes` field of a request is `Option` at the top level
(the Lex event always carries the field, possibly `null`).
-/

namespace Bot

/-- A `{'contentType': ..., 'content': ...}` message dict. -/
structure Message where
  contentType : String
  content : String
deriving DecidableEq, Repr

/-- Slot map: dict from slot name to nullable string value,
in insertion order. -/
abbrev Slots := List (String × Option String)

/-- Python `slots[k]`: `some v` when the key is present (with `v` the
possibly-null value), `none` when subscripting would raise `KeyError`. -/
def lookupSlot (slots : Slots) (k : String) : Option (Option String) :=
  slots.lookup k

/-- Session attributes: dict from string to string. -/
abbrev SessionAttributes := List (String × String)

/-- The `currentIntent` field of a Lex event. -/
structure CurrentIntent where
  name : String
  slots : Slots
deriving DecidableEq, Repr

/-- The inbound Lex event, restricted to the fields the module reads.
`sessionAttributes` is `none` when the event carries `null` there. -/
structure IntentRequest where
  currentIntent : CurrentIntent
  sessionAttributes : Option SessionAttributes
  userId : String
  botName : String
deriving DecidableEq, Repr

/-- The `dialogAction` dict of a response, tagged by its `type` field. -/
inductive DialogAction where
  | elicitSlot (intentName : String) (slots : Slots) (slotToElicit : String)
      (message : Message)
  | confirmIntent (intentName : String) (slots : Slots) (message : Message)
  | close (fulfillmentState : String) (message : Message)
  | delegate (slots : Slots)
deriving DecidableEq, Repr

/-- A full response dict: `sessionAttributes` plus `dialogAction`. -/
structure Response where
  sessionAttributes : SessionAttributes
  dialogAction : DialogAction
deriving DecidableEq, Repr

/-- Python exceptions the module can raise. -/
inductive PyError where
  | typeError (msg : String)
  | keyError (key : String)
  | exception (msg : String)
deriving DecidableEq, Repr

/-- `elicit_slot` response builder (bot.py lines 27-37). -/
def elicit_slot (session_attributes : SessionAttributes) (intent_name : String)
    (slots : Slots) (slot_to_elicit : String) (message : Message) : Response :=
  { sessionAttributes := session_attributes,
    dialogAction :=
      DialogAction.elicitSlot intent_name slots slot_to_elicit message }

/-- `confirm_intent` response builder (bot.py lines 40-50). -/
def confirm_intent (session_attributes : SessionAttributes)
    (intent_name : String) (slots : Slots) (message : Message) : Response :=
  { sessionAttributes := session_attributes,
    dialogAction := DialogAction.confirmIntent intent_name slots message }

/-- `close` response builder (bot.py lines 53-63). -/
def close (session_attributes : SessionAttributes) (fulfillment_state : String)
    (message : Message) : Response :=
  { sessionAttributes := session_attributes,
    dialogAction := DialogAction.close fulfillment_state message }

/-- `delegate` response builder (bot.py lines 66-73). -/
def delegate (session_attributes : SessionAttributes) (slots : Slots) :
    Response :=
  { sessionAttributes := session_attributes,
    dialogAction := DialogAction.delegate slots }

/-- One `genericAttachments` entry of a response card.  Buttons keep the
element type of the options the caller supplied. -/
structure GenericAttachment (α : Type) where
  title : String
  subTitle : String
  buttons : Option (List α)
deriving DecidableEq, Repr

/-- A response card dict (bot.py lines 86-94). -/
structure ResponseCard (α : Type) where
  contentType : String
  version : Nat
  genericAttachments : List (GenericAttachment α)
deriving DecidableEq, Repr

/-- `build_response_card` (bot.py lines 76-94): `buttons` stays `None`
when `options` is `None`; otherwise it is the list built by the loop
`for i in range(min(5, len(options))): buttons.append(options[i])`. -/
def build_response_card {α : Type} (title subtitle : String)
    (options : Option (List α)) : ResponseCard α :=
  let buttons : Option (List α) :=
    match options with
    | none => none
    | some opts => some (opts.take (min 5 opts.length))
  { contentType := "application/vnd.amazonaws.card.generic",
    version := 1,
    genericAttachments :=
      [{ title := title, subTitle := subtitle, buttons := buttons }] }

/-- `deploy_prod_intent` (bot.py lines 97-120).  The statement
`logger.debug("itsm_number" + itsm_number)` runs before the null check:
its argument concatenates a `str` with the slot value, raising
`TypeError` when the slot is `None`. -/
def deploy_prod_intent (intent_request : IntentRequest) :
    Except PyError Response :=
  match lookupSlot intent_request.currentIntent.slots "itsmnumber" with
  | none => Except.error (PyError.keyError "itsmnumber")
  | some itsm_number =>
    match itsm_number with
    | none =>
      Except.error (PyError.typeError "cannot concatenate str and NoneType")
    | some _ =>
      let output_session_attributes := intent_request.sessionAttributes.getD []
      if itsm_number = none then
        Except.ok (elicit_slot output_session_attributes "Deploytoprodintent"
          intent_request.currentIntent.slots "itsmnumber"
          { contentType := "PlainText",
            content := "Please provide a valid ITSM Number" })
      else
        Except.ok (close output_session_attributes "Fulfilled"
          { contentType := "PlainText",
            content := "Your deployment is scheduled" })

/-- `deploy_intent` (bot.py lines 124-142). -/
def deploy_intent (intent_request : IntentRequest) : Except PyError Response :=
  match lookupSlot intent_request.currentIntent.slots "environment" with
  | none => Except.error (PyError.keyError "environment")
  | some env_name =>
    let output_session_attributes := intent_request.sessionAttributes.getD []
    if env_name = some "prod" then
      Except.ok (elicit_slot output_session_attributes "Deploytoprodintent"
        intent_request.currentIntent.slots "itsmnumber"
        { contentType := "PlainText",
          content := "Please provide valid ITSM number" })
    else
      Except.ok (close output_session_attributes "Fulfilled"
        { contentType := "PlainText",
          content := "Your deployment is scheduled" })

/-- `dispatch` (bot.py lines 145-159).  The second branch calls
`deploy_prod_intent()` with no argument: in Python this raises
`TypeError` at the call site, before the handler body can run, so the
branch is embedded as that error. -/
def dispatch (intent_request : IntentRequest) : Except PyError Response :=
  let intent_name := intent_request.currentIntent.name
  if intent_name = "DeploymentIntent" then
    deploy_intent intent_request
  else if intent_name = "Deploytoprodintent" then
    Except.error (PyError.typeError
      "deploy_prod_intent missing 1 required positional argument")
  else
    Except.error (PyError.exception
      ("Intent with name " ++ intent_name ++ " not supported"))

end Bot

namespace Bot

/-- `true` exactly when the dialog action is an `ElicitSlot` or a
`Close`. -/
def DialogAction.isElicitSlotOrClose : DialogAction → Bool
  | DialogAction.elicitSlot _ _ _ _ => true
  | DialogAction.close _ _ => true
  | _ => false

/-- A successful `dispatch` can only have come from `deploy_intent`:
the other two branches are errors. -/
theorem dispatch_ok_imp_deploy_intent (req : IntentRequest) (resp : Response)
    (h : dispatch req = Except.ok resp) :
    deploy_intent req = Except.ok resp := by
  simp only [dispatch] at h
  split at h
  · exact h
  · split at h
    · exact Except.noConfusion h
    · exact Except.noConfusion h

/-- A successful `deploy_intent` result is either the prod `ElicitSlot`
response or the `Close`/`Fulfilled` response, in both cases built over
the request session attributes defaulted to the empty mapping. -/
theorem deploy_intent_ok_shape (req : IntentRequest) (resp : Response)
    (h : deploy_intent req = Except.ok resp) :
    resp = elicit_slot (req.sessionAttributes.getD []) "Deploytoprodintent"
        req.currentIntent.slots "itsmnumber"
        { contentType := "PlainText",
          content := "Please provide valid ITSM number" }
    ∨ resp = close (req.sessionAttributes.getD []) "Fulfilled"
        { contentType := "PlainText",
          content := "Your deployment is scheduled" } := by
  unfold deploy_intent at h
  split at h
  · exact Except.noConfusion h
  · split at h
    · exact Or.inl (Except.ok.inj h).symm
    · exact Or.inr (Except.ok.inj h).symm

/-- C1: for every request whose intent name is `"DeploymentIntent"` and
whose `environment` slot equals `"prod"`, the handler returns an
`ElicitSlot` response with `slotToElicit = "itsmnumber"`,
`intentName = "Deploytoprodintent"`, carrying the request slot map
unchanged (and the session attributes defaulted to the empty mapping). -/
theorem C1_prod_elicits_itsm (req : IntentRequest)
    (hname : req.currentIntent.name = "DeploymentIntent")
    (henv : lookupSlot req.currentIntent.slots "environment"
      = some (some "prod")) :
    dispatch req = Except.ok
      { sessionAttributes := req.sessionAttributes.getD [],
        dialogAction := DialogAction.elicitSlot "Deploytoprodintent"
          req.currentIntent.slots "itsmnumber"
          { contentType := "PlainText",
            content := "Please provide valid ITSM number" } } := by
  simp [dispatch, hname, deploy_intent, henv, elicit_slot]

/-- A concrete `"DeploymentIntent"` request with `environment = "prod"`. -/
def reqC1 : IntentRequest :=
  { currentIntent := { name := "DeploymentIntent",
                       slots := [("environment", some "prod")] },
    sessionAttributes := some [("channel", "web")],
    userId := "u1", botName := "deploybot" }

/-- Witness for C1 at the concrete request `reqC1`. -/
theorem C1_witness :
    dispatch reqC1 = Except.ok
      { sessionAttributes := reqC1.sessionAttributes.getD [],
        dialogAction := DialogAction.elicitSlot "Deploytoprodintent"
          reqC1.currentIntent.slots "itsmnumber"
          { contentType := "PlainText",
            content := "Please provide valid ITSM number" } } :=
  C1_prod_elicits_itsm reqC1 rfl rfl

/-- C2: for every request whose intent name is `"DeploymentIntent"` and
whose `environment` slot is a string other than `"prod"`, the handler
returns a `Close` response with `fulfillmentState = "Fulfilled"`; any two
such non-`"prod"` values (other request fields held equal) produce
identical responses. -/
theorem C2_nonprod_close (req req2 : IntentRequest) (v v2 : String)
    (hname : req.currentIntent.name = "DeploymentIntent")
    (henv : lookupSlot req.currentIntent.slots "environment" = some (some v))
    (hv : v ≠ "prod")
    (hname2 : req2.currentIntent.name = "DeploymentIntent")
    (henv2 : lookupSlot req2.currentIntent.slots "environment"
      = some (some v2))
    (hv2 : v2 ≠ "prod")
    (hsess : req2.sessionAttributes = req.sessionAttributes) :
    dispatch req = Except.ok
      { sessionAttributes := req.sessionAttributes.getD [],
        dialogAction := DialogAction.close "Fulfilled"
          { contentType := "PlainText",
            content := "Your deployment is scheduled" } }
    ∧ dispatch req2 = dispatch req := by
  have key : ∀ (r : IntentRequest) (w : String),
      r.currentIntent.name = "DeploymentIntent" →
      lookupSlot r.currentIntent.slots "environment" = some (some w) →
      w ≠ "prod" →
      dispatch r = Except.ok
        { sessionAttributes := r.sessionAttributes.getD [],
          dialogAction := DialogAction.close "Fulfilled"
            { contentType := "PlainText",
              content := "Your deployment is scheduled" } } := by
    intro r w hn he hw
    simp [dispatch, hn, deploy_intent, he, hw, close]
  refine ⟨key req v hname henv hv, ?_⟩
  rw [key req2 v2 hname2 henv2 hv2, key req v hname henv hv, hsess]

/-- A concrete `"DeploymentIntent"` request with `environment = "staging"`. -/
def reqC2a : IntentRequest :=
  { currentIntent := { name := "DeploymentIntent",
                       slots := [("environment", some "staging")] },
    sessionAttributes := some [("k", "v")],
    userId := "u2", botName := "deploybot" }

/-- A concrete `"DeploymentIntent"` request with `environment = "dev"`. -/
def reqC2b : IntentRequest :=
  { currentIntent := { name := "DeploymentIntent",
                       slots := [("environment", some "dev")] },
    sessionAttributes := some [("k", "v")],
    userId := "u2", botName := "deploybot" }

/-- Witness for C2 at the concrete requests `reqC2a` and `reqC2b`. -/
theorem C2_witness :
    dispatch reqC2a = Except.ok
      { sessionAttributes := reqC2a.sessionAttributes.getD [],
        dialogAction := DialogAction.close "Fulfilled"
          { contentType := "PlainText",
            content := "Your deployment is scheduled" } }
    ∧ dispatch reqC2b = dispatch reqC2a :=
  C2_nonprod_close reqC2a reqC2b "staging" "dev" rfl rfl (by decide) rfl rfl
    (by decide) rfl

end Bot

namespace Bot

/-- A concrete `"Deploytoprodintent"` request with a null `itsmnumber`
slot. -/
def reqC3 : IntentRequest :=
  { currentIntent := { name := "Deploytoprodintent",
                       slots := [("itsmnumber", none)] },
    sessionAttributes := some [],
    userId := "u3", botName := "deploybot" }

/-- C3: the claim says a null `itsmnumber` slot makes the invocation
return an `ElicitSlot` response re-requesting `"itsmnumber"`.  The code
instead fails on that input: `deploy_prod_intent` raises `TypeError`
at the `logger.debug` string concatenation before reaching its null
check, and `dispatch` raises `TypeError` even earlier by calling the
handler with no argument. -/
theorem C3_null_itsm_raises :
    deploy_prod_intent reqC3 =
      Except.error (PyError.typeError "cannot concatenate str and NoneType")
    ∧ dispatch reqC3 =
      Except.error (PyError.typeError
        "deploy_prod_intent missing 1 required positional argument") :=
  ⟨rfl, rfl⟩

/-- A concrete `"Deploytoprodintent"` request with
`itsmnumber = "INC12345"`. -/
def reqC4 : IntentRequest :=
  { currentIntent := { name := "Deploytoprodintent",
                       slots := [("itsmnumber", some "INC12345")] },
    sessionAttributes := some [],
    userId := "u4", botName := "deploybot" }

/-- C4: the claim says a `"Deploytoprodintent"` request with a non-null
`itsmnumber` slot yields a `Close`/`Fulfilled` response.  The handler
body does build exactly that response, but the invocation through
`dispatch` never reaches it: the dispatcher calls the handler with no
argument and raises `TypeError`. -/
theorem C4_dispatch_never_reaches_handler :
    dispatch reqC4 =
      Except.error (PyError.typeError
        "deploy_prod_intent missing 1 required positional argument")
    ∧ deploy_prod_intent reqC4 = Except.ok (close [] "Fulfilled"
        { contentType := "PlainText",
          content := "Your deployment is scheduled" }) :=
  ⟨rfl, rfl⟩

/-- C5: for every request whose intent name is neither
`"DeploymentIntent"` nor `"Deploytoprodintent"`, `dispatch` fails with
an error carrying the offending intent name, and no response is
returned. -/
theorem C5_unsupported_intent (req : IntentRequest)
    (h1 : req.currentIntent.name ≠ "DeploymentIntent")
    (h2 : req.currentIntent.name ≠ "Deploytoprodintent") :
    dispatch req = Except.error (PyError.exception
      ("Intent with name " ++ req.currentIntent.name ++ " not supported")) := by
  simp [dispatch, h1, h2]

/-- A concrete request with the unsupported intent name
`"CancelIntent"`. -/
def reqC5 : IntentRequest :=
  { currentIntent := { name := "CancelIntent", slots := [] },
    sessionAttributes := none,
    userId := "u5", botName := "deploybot" }

/-- Witness for C5 at the concrete request `reqC5`. -/
theorem C5_witness :
    dispatch reqC5 = Except.error (PyError.exception
      ("Intent with name " ++ reqC5.currentIntent.name ++ " not supported")) :=
  C5_unsupported_intent reqC5 (by decide) (by decide)

/-- C6: every response actually returned by `dispatch` carries the
request session attributes when present and non-null, and the empty
mapping otherwise. -/
theorem C6_session_attributes_round_trip (req : IntentRequest)
    (resp : Response) (h : dispatch req = Except.ok resp) :
    resp.sessionAttributes = req.sessionAttributes.getD [] := by
  rcases deploy_intent_ok_shape req resp
      (dispatch_ok_imp_deploy_intent req resp h) with h1 | h1 <;>
    rw [h1] <;> rfl

/-- The response `dispatch` produces for `reqC1`. -/
def respC1 : Response :=
  { sessionAttributes := [("channel", "web")],
    dialogAction := DialogAction.elicitSlot "Deploytoprodintent"
      [("environment", some "prod")] "itsmnumber"
      { contentType := "PlainText",
        content := "Please provide valid ITSM number" } }

/-- Witness for C6 at the concrete request `reqC1`. -/
theorem C6_witness :
    respC1.sessionAttributes = reqC1.sessionAttributes.getD [] :=
  C6_session_attributes_round_trip reqC1 respC1 rfl

/-- C7 counterexample: with an empty (but non-null) options list,
`build_response_card` returns an empty `buttons` list, not null, so the
claim that 0 options yield null `buttons` is false. -/
theorem C7_empty_options_not_null :
    (build_response_card "Choose" "an option"
        (some ([] : List String))).genericAttachments =
      [{ title := "Choose", subTitle := "an option", buttons := some [] }]
    ∧ (some ([] : List String)) ≠ (none : Option (List String)) :=
  ⟨rfl, by simp⟩

/-- C7 (amended): `build_response_card` caps the buttons at the first 5
options in input order with no error, and `buttons` is null exactly when
the options argument is null; an empty options list gives an empty
buttons list. -/
theorem C7_card_caps_at_five {α : Type} (title subtitle : String)
    (options : Option (List α)) :
    build_response_card title subtitle options =
      { contentType := "application/vnd.amazonaws.card.generic",
        version := 1,
        genericAttachments := [{ title := title, subTitle := subtitle,
                                 buttons :=
                                   options.map (fun opts => opts.take 5) }] } := by
  cases options with
  | none => rfl
  | some opts =>
    have h5 : opts.take (min 5 opts.length) = opts.take 5 := by
      rw [List.take_eq_take]
      omega
    simp [build_response_card, h5]

/-- C8: for every request whose intent name is `"Deploytoprodintent"`,
the dispatcher fails (the call omits the handler's required request
argument) instead of returning the handler's response. -/
theorem C8_dispatch_omits_argument (req : IntentRequest)
    (h : req.currentIntent.name = "Deploytoprodintent") :
    dispatch req = Except.error (PyError.typeError
      "deploy_prod_intent missing 1 required positional argument") := by
  simp [dispatch, h]

/-- Witness for C8 at the concrete request `reqC4`. -/
theorem C8_witness :
    dispatch reqC4 = Except.error (PyError.typeError
      "deploy_prod_intent missing 1 required positional argument") :=
  C8_dispatch_omits_argument reqC4 rfl

/-- C9: for every `"DeploymentIntent"` request whose `environment` slot
is null, the handler neither fails nor re-elicits: it returns the same
`Close`/`Fulfilled` response with message "Your deployment is scheduled"
as for any non-`"prod"` value. -/
theorem C9_null_environment_close (req : IntentRequest)
    (hname : req.currentIntent.name = "DeploymentIntent")
    (henv : lookupSlot req.currentIntent.slots "environment" = some none) :
    dispatch req = Except.ok
      { sessionAttributes := req.sessionAttributes.getD [],
        dialogAction := DialogAction.close "Fulfilled"
          { contentType := "PlainText",
            content := "Your deployment is scheduled" } } := by
  simp [dispatch, hname, deploy_intent, henv, close]

/-- A concrete `"DeploymentIntent"` request with a null `environment`
slot. -/
def reqC9 : IntentRequest :=
  { currentIntent := { name := "DeploymentIntent",
                       slots := [("environment", none)] },
    sessionAttributes := none,
    userId := "u9", botName := "deploybot" }

/-- Witness for C9 at the concrete request `reqC9`. -/
theorem C9_witness :
    dispatch reqC9 = Except.ok
      { sessionAttributes := reqC9.sessionAttributes.getD [],
        dialogAction := DialogAction.close "Fulfilled"
          { contentType := "PlainText",
            content := "Your deployment is scheduled" } } :=
  C9_null_environment_close reqC9 rfl rfl

/-- C10: every response actually returned through `dispatch` has a
dialog action of type `ElicitSlot` or `Close`; no reachable path
returns a `ConfirmIntent` or `Delegate` response. -/
theorem C10_only_elicit_or_close (req : IntentRequest) (resp : Response)
    (h : dispatch req = Except.ok resp) :
    resp.dialogAction.isElicitSlotOrClose = true := by
  rcases deploy_intent_ok_shape req resp
      (dispatch_ok_imp_deploy_intent req resp h) with h1 | h1 <;>
    rw [h1] <;> rfl

/-- Witness for C10 at the concrete request `reqC9`. -/
theorem C10_witness :
    ({ sessionAttributes := [],
       dialogAction := DialogAction.close "Fulfilled"
         { contentType := "PlainText",
           content := "Your deployment is scheduled" } } :
        Response).dialogAction.isElicitSlotOrClose = true :=
  C10_only_elicit_or_close reqC9 _ rfl

end Bot
